import Mathlib

/-!
Verification development for the Loki range-query client
(`volumes/nextflow/agent/loki_utils/loki_client.py`) and its consumer-side
record normalization (`volumes/nextflow/agent/agent.py`).

Python machine behaviour is embedded shallowly:
* Python exceptions become the `PyError` sum type (an `Except PyError _` result).
* JSON-decoded Python values become the `PyVal` inductive type.
* Clock reads are passed explicitly: `calculate_range` takes the single
  `datetime.now(timezone.utc)` reading (in integer microseconds, the
  resolution of a Python `datetime`) as a parameter.
* Exact rational arithmetic replaces CPython float arithmetic; the sub-unit
  rounding this ignores is covered by the epsilon the specification grants.
-/

/-- Python exceptions raised by the embedded code.  The specification's error
taxonomy maps onto these as follows: `InvalidArgument` and
`ConfigurationError` are both raised as `ValueError` by the source;
`BackendQueryError` and `BackendUnreachableError` are both raised as
`RuntimeError` by the source; JSON decode failures (`ResponseParseError`)
are `ValueError` subclasses. -/
inductive PyError where
  | valueError (msg : String)
  | runtimeError (msg : String)
  | typeError (msg : String)
  | keyError (key : String)
  deriving DecidableEq, Repr

/-- Python values as produced by `json.loads`, plus `instant`, which models a
pandas `Timestamp` holding a number of nanoseconds since the Unix epoch
(the result of `pd.to_datetime(n, unit="ns")`).  `float` carries the exact
decimal value; IEEE rounding is not modelled (no claim depends on it). -/
inductive PyVal where
  | none
  | bool (b : Bool)
  | int (n : ℤ)
  | float (q : ℚ)
  | str (s : String)
  | list (xs : List PyVal)
  | dict (fields : List (String × PyVal))
  | instant (ns : ℤ)

/-- Truncation toward zero, the behaviour of Python `int()` on a number. -/
def py_int_trunc (q : ℚ) : ℤ := if q < 0 then ⌈q⌉ else ⌊q⌋

/-- Model of `_to_unix_ns`: `int(dt.timestamp() * 1_000_000_000)` for a datetime held
as `us` microseconds since the epoch.  `dt.timestamp()` is `us / 10^6`
seconds (exact rational here; CPython's float conversion adds sub-microsecond
error absorbed by the specification's epsilon). -/
def to_unix_ns (us : ℤ) : ℤ := py_int_trunc ((us : ℚ) / 1000000 * 1000000000)

/-- CPython `timedelta(hours=h)` expressed in integer microseconds: CPython rounds the
fractional microseconds to the nearest integer (ties-to-even in CPython;
modelled with `round`, which differs only on exact ties, within the granted
epsilon). -/
def timedelta_us (hours : ℚ) : ℤ := round (hours * 3600 * 1000000)

/-- The function `calculate_range(hours_ago)` from `loki_client.py`.  `now_us` is the one
`datetime.now(timezone.utc)` clock reading (microseconds since the epoch);
both ends of the returned range derive from this single reading. -/
def calculate_range (hours_ago : ℚ) (now_us : ℤ) : Except PyError (ℤ × ℤ) :=
  if hours_ago < 0 then
    .error (.valueError "hours_ago must be non-negative")
  else
    .ok (to_unix_ns (now_us - timedelta_us hours_ago), to_unix_ns now_us)

/-- UTF-8 encoding of one character (the bytes of Python `str.encode()`). -/
def utf8Bytes (c : Char) : List Nat :=
  let n := c.toNat
  if n < 128 then [n]
  else if n < 2048 then [192 + n / 64, 128 + n % 64]
  else if n < 65536 then [224 + n / 4096, 128 + n / 64 % 64, 128 + n % 64]
  else [240 + n / 262144, 128 + n / 4096 % 64, 128 + n / 64 % 64, 128 + n % 64]

/-- UTF-8 encoding of a string as a byte list. -/
def utf8Encode (s : String) : List Nat := s.toList.flatMap utf8Bytes

/-- The base64 alphabet, indexed 0–63. -/
def base64Char (i : Nat) : Char :=
  "ABCDEFGHIJKLMNOPQRSTUVWXYZabcdefghijklmnopqrstuvwxyz0123456789+/".toList.getD i '?'

/-- RFC 4648 base64 of a byte list with `=` padding (`base64.b64encode`). -/
def b64EncodeBytes : List Nat → List Char
  | [] => []
  | [b1] =>
      [base64Char (b1 / 4), base64Char (b1 % 4 * 16), '=', '=']
  | [b1, b2] =>
      [base64Char (b1 / 4), base64Char (b1 % 4 * 16 + b2 / 16),
       base64Char (b2 % 16 * 4), '=']
  | b1 :: b2 :: b3 :: rest =>
      base64Char (b1 / 4) :: base64Char (b1 % 4 * 16 + b2 / 16) ::
      base64Char (b2 % 16 * 4 + b3 / 64) :: base64Char (b3 % 64) ::
      b64EncodeBytes rest

/-- Model of `base64.b64encode(s.encode()).decode()`. -/
def b64Encode (s : String) : String := String.mk (b64EncodeBytes (utf8Encode s))

/-- The `LokiAuth` dataclass: two independent optional fields, no invariant. -/
structure LokiAuth where
  basic_auth : Option (String × String) := Option.none
  bearer_token : Option String := Option.none
  deriving DecidableEq, Repr

/-- The `@dataclass`-generated `LokiAuth.__init__`: it assigns the two fields
and performs no validation, so construction never fails. -/
def mkLokiAuth (basic_auth : Option (String × String)) (bearer_token : Option String) :
    Except PyError LokiAuth :=
  .ok ⟨basic_auth, bearer_token⟩

/-- Python truthiness of `basic_auth : Optional[tuple[str, str]]`: `None` is
falsy; a 2-tuple is a non-empty tuple, hence truthy whatever the strings. -/
def basicTruthy (b : Option (String × String)) : Bool := b.isSome

/-- Python truthiness of `bearer_token : Optional[str]`: `None` and the empty
string are falsy. -/
def bearerTruthy : Option String → Bool
  | Option.none => false
  | Option.some t => t ≠ ""

/-- Method `LokiAuth.headers` from `loki_client.py`:
raises `ValueError` when both fields are truthy, else emits a `Basic` header
when `basic_auth` is truthy, else a `Bearer` header when `bearer_token` is
truthy, else no headers. -/
def LokiAuth.headers (a : LokiAuth) : Except PyError (List (String × String)) :=
  if basicTruthy a.basic_auth && bearerTruthy a.bearer_token then
    .error (.valueError "Use either basic_auth or bearer_token, not both.")
  else
    match a.basic_auth with
    | Option.some (user, password) =>
        .ok [("Authorization", "Basic " ++ b64Encode (user ++ ":" ++ password))]
    | Option.none =>
        match a.bearer_token with
        | Option.some t =>
            if t ≠ "" then .ok [("Authorization", "Bearer " ++ t)] else .ok []
        | Option.none => .ok []

/-! ## A model of `json.loads`

A recursive-descent decoder for RFC 8259 JSON, matching Python's `json.loads`
on the shapes this repository exchanges.  Known simplifications, none
exercised by any claim: float values are kept as exact decimals rather than
IEEE doubles; `\u` escapes yield the raw code unit (surrogate pairs are not
combined); error messages omit Python's line/column suffix. -/

/-- The two brace characters, referred to by code point. -/
def lbraceChar : Char := Char.ofNat 123

/-- The closing brace character. -/
def rbraceChar : Char := Char.ofNat 125

/-- Skip RFC 8259 insignificant whitespace. -/
def skipWs : List Char → List Char
  | [] => []
  | c :: cs =>
    if c = ' ' ∨ c = '\t' ∨ c = '\n' ∨ c = '\r' then skipWs cs else c :: cs

/-- The value of a hexadecimal digit. -/
def hexDigit (c : Char) : Option Nat :=
  if '0' ≤ c ∧ c ≤ '9' then Option.some (c.toNat - 48)
  else if 'a' ≤ c ∧ c ≤ 'f' then Option.some (c.toNat - 87)
  else if 'A' ≤ c ∧ c ≤ 'F' then Option.some (c.toNat - 55)
  else Option.none

/-- Decode the body of a JSON string after its opening quote; `acc` holds the
decoded characters in reverse. -/
def decodeStringBody : List Char → List Char → Option (String × List Char)
  | _, [] => Option.none
  | acc, '"' :: cs => Option.some (String.mk acc.reverse, cs)
  | _, ['\\'] => Option.none
  | acc, '\\' :: 'u' :: h1 :: h2 :: h3 :: h4 :: cs =>
    (match hexDigit h1, hexDigit h2, hexDigit h3, hexDigit h4 with
     | Option.some d1, Option.some d2, Option.some d3, Option.some d4 =>
         decodeStringBody (Char.ofNat (d1 * 4096 + d2 * 256 + d3 * 16 + d4) :: acc) cs
     | _, _, _, _ => Option.none)
  | acc, '\\' :: e :: cs =>
    if e = '"' ∨ e = '\\' ∨ e = '/' then decodeStringBody (e :: acc) cs
    else if e = 'b' then decodeStringBody (Char.ofNat 8 :: acc) cs
    else if e = 'f' then decodeStringBody (Char.ofNat 12 :: acc) cs
    else if e = 'n' then decodeStringBody ('\n' :: acc) cs
    else if e = 'r' then decodeStringBody ('\r' :: acc) cs
    else if e = 't' then decodeStringBody ('\t' :: acc) cs
    else Option.none
  | acc, c :: cs => decodeStringBody (c :: acc) cs

/-- Numeric value of a list of decimal digits. -/
def digitsVal (ds : List Char) : ℕ := ds.foldl (fun a c => a * 10 + (c.toNat - 48)) 0

/-- Decode an optional exponent part.  `Option.none` means the exponent marker
was present but malformed; otherwise returns the exponent (0 when absent)
paired with a flag telling whether one was present. -/
def decodeExp : List Char → Option ((Option ℤ) × List Char)
  | c :: r =>
    if c = 'e' ∨ c = 'E' then
      let p1 : ℤ × List Char :=
        match r with
        | '+' :: r2 => (1, r2)
        | '-' :: r2 => (-1, r2)
        | _ => (1, r)
      let p := p1.2.span (fun d => d.isDigit)
      if p.1.isEmpty then Option.none
      else Option.some (Option.some (p1.1 * (digitsVal p.1 : ℤ)), p.2)
    else Option.some (Option.none, c :: r)
  | [] => Option.some (Option.none, [])

/-- Assemble a JSON number: an `int` when it has neither fraction nor
exponent (as in Python's `json`), else a `float` held as an exact decimal. -/
def mkNumber (neg : Bool) (ip fp : List Char) (ex : Option ℤ) : PyVal :=
  match ex, fp with
  | Option.none, [] =>
      PyVal.int (if neg then -(digitsVal ip : ℤ) else (digitsVal ip : ℤ))
  | _, _ =>
      let mag : ℚ := ((digitsVal ip : ℚ) + (digitsVal fp : ℚ) / (10 : ℚ) ^ fp.length)
                      * (10 : ℚ) ^ (ex.getD 0)
      PyVal.float (if neg then -mag else mag)

/-- Decode a JSON number (RFC 8259 grammar: optional minus, `0` or nonzero-led
digits, optional fraction, optional exponent). -/
def decodeNumber (cs : List Char) : Option (PyVal × List Char) :=
  let p0 : Bool × List Char :=
    match cs with
    | '-' :: r => (true, r)
    | _ => (false, cs)
  let p1 : List Char × List Char :=
    match p0.2 with
    | '0' :: r => (['0'], r)
    | l => l.span (fun c => c.isDigit)
  if p1.1.isEmpty then Option.none
  else
    match p1.2 with
    | '.' :: r =>
      let p2 := r.span (fun c => c.isDigit)
      if p2.1.isEmpty then Option.none
      else
        match decodeExp p2.2 with
        | Option.some (ex, r2) => Option.some (mkNumber p0.1 p1.1 p2.1 ex, r2)
        | Option.none => Option.none
    | l =>
      match decodeExp l with
      | Option.some (ex, r2) => Option.some (mkNumber p0.1 p1.1 [] ex, r2)
      | Option.none => Option.none

/-- Insert a key into a Python dict: an existing key keeps its position and
gets the new value; a new key is appended (CPython dict insertion order). -/
def pyDictInsert (fs : List (String × PyVal)) (k : String) (v : PyVal) :
    List (String × PyVal) :=
  if (fs.lookup k).isSome then
    fs.map (fun p => if p.1 = k then (k, v) else p)
  else fs ++ [(k, v)]

mutual

/-- Decode one JSON value, skipping leading whitespace.  `fuel` bounds the
recursion; `json_loads` supplies more than enough. -/
def decodeJsonVal : Nat → List Char → Option (PyVal × List Char)
  | 0, _ => Option.none
  | fuel + 1, cs =>
    match skipWs cs with
    | [] => Option.none
    | c :: r =>
      if c = '"' then
        (decodeStringBody [] r).map (fun p => (PyVal.str p.1, p.2))
      else if c = lbraceChar then
        match skipWs r with
        | d :: r2 =>
          if d = rbraceChar then Option.some (PyVal.dict [], r2)
          else decodeJsonMembers fuel [] (d :: r2)
        | [] => Option.none
      else if c = '[' then
        match skipWs r with
        | ']' :: r2 => Option.some (PyVal.list [], r2)
        | s => decodeJsonItems fuel [] s
      else if c = 't' then
        match r with
        | 'r' :: 'u' :: 'e' :: r2 => Option.some (PyVal.bool true, r2)
        | _ => Option.none
      else if c = 'f' then
        match r with
        | 'a' :: 'l' :: 's' :: 'e' :: r2 => Option.some (PyVal.bool false, r2)
        | _ => Option.none
      else if c = 'n' then
        match r with
        | 'u' :: 'l' :: 'l' :: r2 => Option.some (PyVal.none, r2)
        | _ => Option.none
      else decodeNumber (c :: r)

/-- Decode the members of a JSON object after its opening brace (cursor at a
key).  Duplicate keys update in place, as Python dict assignment does. -/
def decodeJsonMembers : Nat → List (String × PyVal) → List Char →
    Option (PyVal × List Char)
  | 0, _, _ => Option.none
  | fuel + 1, acc, cs =>
    match cs with
    | '"' :: r =>
      match decodeStringBody [] r with
      | Option.some (k, r1) =>
        match skipWs r1 with
        | ':' :: r2 =>
          match decodeJsonVal fuel r2 with
          | Option.some (v, r3) =>
            match skipWs r3 with
            | ',' :: r4 => decodeJsonMembers fuel (pyDictInsert acc k v) (skipWs r4)
            | d :: r4 =>
              if d = rbraceChar then Option.some (PyVal.dict (pyDictInsert acc k v), r4)
              else Option.none
            | [] => Option.none
          | Option.none => Option.none
        | _ => Option.none
      | Option.none => Option.none
    | _ => Option.none

/-- Decode the items of a JSON array after its opening bracket (cursor at the
first item, the empty array already handled). -/
def decodeJsonItems : Nat → List PyVal → List Char → Option (PyVal × List Char)
  | 0, _, _ => Option.none
  | fuel + 1, acc, cs =>
    match decodeJsonVal fuel cs with
    | Option.some (v, r) =>
      match skipWs r with
      | ',' :: r2 => decodeJsonItems fuel (v :: acc) r2
      | ']' :: r2 => Option.some (PyVal.list (v :: acc).reverse, r2)
      | _ => Option.none
    | Option.none => Option.none

end

/-- Model of `json.loads`: decode one value and insist nothing but whitespace follows. -/
def json_loads (s : String) : Except PyError PyVal :=
  match decodeJsonVal (2 * s.length + 2) s.toList with
  | Option.some (v, rest) =>
      if skipWs rest = [] then .ok v else .error (.valueError "Extra data")
  | Option.none => .error (.valueError "Expecting value")

/-! ## Models of `str()`, `int()` and Python iteration -/

mutual

/-- Python `repr()` of a value (float and Timestamp renderings are schematic;
no claim evaluates them). -/
def py_repr : PyVal → String
  | PyVal.none => "None"
  | PyVal.bool true => "True"
  | PyVal.bool false => "False"
  | PyVal.int n => toString n
  | PyVal.float q => toString q
  | PyVal.str s => "\x27" ++ s ++ "\x27"
  | PyVal.instant ns => "Timestamp(" ++ toString ns ++ ")"
  | PyVal.list xs => "[" ++ String.intercalate ", " (py_repr_list xs) ++ "]"
  | PyVal.dict fs =>
      "\x7b" ++ String.intercalate ", " (py_repr_fields fs) ++ "\x7d"

/-- Renders each element of a list with `py_repr`. -/
def py_repr_list : List PyVal → List String
  | [] => []
  | x :: xs => py_repr x :: py_repr_list xs

/-- Renders each key/value pair of a dict with `py_repr`. -/
def py_repr_fields : List (String × PyVal) → List String
  | [] => []
  | (k, v) :: fs => ("\x27" ++ k ++ "\x27: " ++ py_repr v) :: py_repr_fields fs

end

/-- Python `str()`: the identity on strings, `repr()`-like elsewhere. -/
def py_str : PyVal → String
  | PyVal.str s => s
  | v => py_repr v

/-- Model of `int(s)` for a string: optional surrounding whitespace, optional sign,
decimal digits (underscore group separators are not modelled). -/
def str_to_int (s : String) : Except PyError ℤ :=
  let cs := skipWs s.toList
  let p0 : Bool × List Char :=
    match cs with
    | '-' :: r => (true, r)
    | '+' :: r => (false, r)
    | _ => (false, cs)
  let p := p0.2.span (fun c => c.isDigit)
  if p.1.isEmpty ∨ skipWs p.2 ≠ [] then
    .error (.valueError ("invalid literal for int() with base 10: " ++
      py_repr (PyVal.str s)))
  else
    .ok (if p0.1 then -(digitsVal p.1 : ℤ) else (digitsVal p.1 : ℤ))

/-- Python `int()` on a value: ints pass through, bools become 0/1, floats
truncate toward zero, strings are parsed; anything else raises `TypeError`. -/
def py_int : PyVal → Except PyError ℤ
  | PyVal.int n => .ok n
  | PyVal.bool b => .ok (if b then 1 else 0)
  | PyVal.float q => .ok (py_int_trunc q)
  | PyVal.str s => str_to_int s
  | _ => .error (.typeError
      "int() argument must be a string, a bytes-like object or a real number")

/-- Python iteration (`for x in v`): lists yield their elements, dicts their
keys, strings their characters as one-character strings; other values raise
`TypeError`. -/
def pyIter : PyVal → Except PyError (List PyVal)
  | PyVal.list xs => .ok xs
  | PyVal.dict fs => .ok (fs.map (fun p => PyVal.str p.1))
  | PyVal.str s => .ok (s.toList.map (fun c => PyVal.str (String.mk [c])))
  | _ => .error (.typeError "object is not iterable")

/-! ## The stream flattener and the range-query call -/

/-- One flattened record as built by `LokiClient._parse_streams`: the dict
with keys `timestamp`, `labels`, `record`. -/
structure FlatRecord where
  timestamp : PyVal
  labels : PyVal
  record : PyVal

/-- The body of the `for entry in values` loop in `_parse_streams`: entries
that are not exactly two-element lists/tuples are skipped (`continue`); a
well-formed pair `[timestamp, record]` is emitted with the stream's labels. -/
def flattenEntry (labels : PyVal) : PyVal → Option FlatRecord
  | PyVal.list [t, r] => Option.some ⟨t, labels, r⟩
  | _ => Option.none

/-- One iteration of the `for stream in streams` loop in `_parse_streams`:
`labels = stream.get("stream", dict())` and `values = stream.get("values",
list())` when `stream` is a dict (defaults otherwise), then the values are
iterated and flattened. -/
def parse_stream_records (stream : PyVal) : Except PyError (List FlatRecord) := do
  let labels :=
    match stream with
    | PyVal.dict fs => (fs.lookup "stream").getD (PyVal.dict [])
    | _ => PyVal.dict []
  let values :=
    match stream with
    | PyVal.dict fs => (fs.lookup "values").getD (PyVal.list [])
    | _ => PyVal.list []
  let vs ← pyIter values
  return vs.filterMap (flattenEntry labels)

/-- The outer loop of `_parse_streams`, appending each stream's records in
stream order.  A failure (non-iterable `values`) propagates, discarding the
partial result, exactly as the raised exception does. -/
def parse_streams_loop : List PyVal → Except PyError (List FlatRecord)
  | [] => .ok []
  | s :: rest => do
    let recs ← parse_stream_records s
    let more ← parse_streams_loop rest
    return recs ++ more

/-- The static method `LokiClient._parse_streams`: `data.get("data", dict())` when `data` is a
dict, then `data_block.get("result", list())` when that is a dict, then the
streams are iterated and flattened. -/
def parse_streams (data : PyVal) : Except PyError (List FlatRecord) := do
  let data_block :=
    match data with
    | PyVal.dict fs => (fs.lookup "data").getD (PyVal.dict [])
    | _ => PyVal.dict []
  let streams :=
    match data_block with
    | PyVal.dict fs => (fs.lookup "result").getD (PyVal.list [])
    | _ => PyVal.list []
  let ss ← pyIter streams
  parse_streams_loop ss

/-- Outcome of the `urllib.request.urlopen` call in `LokiClient.query_range`:
a success body (2xx), an `HTTPError` (non-2xx status, with the error body),
or a `URLError` (transport-level failure: DNS, connection refused, timeout). -/
inductive HttpOutcome where
  | success (body : String)
  | httpError (code : ℤ) (body : String)
  | urlError (reason : String)
  deriving DecidableEq, Repr

/-- The `try/except` around `urlopen` in `LokiClient.query_range`: both the
`HTTPError` and the `URLError` handlers raise `RuntimeError`, differing only
in the message text. -/
def fetch_payload : HttpOutcome → Except PyError String
  | .success body => .ok body
  | .httpError code body =>
      .error (.runtimeError
        ("Loki query failed with HTTP " ++ toString code ++ ": " ++ body))
  | .urlError reason =>
      .error (.runtimeError ("Failed to reach Loki: " ++ reason))

/-- Method `LokiClient.query_range`, with the clock reading and the HTTP outcome as
explicit parameters: compute the range, build the auth headers, fetch the
payload, JSON-decode it, and flatten the streams. -/
def query_range (hours_ago : ℚ) (now_us : ℤ) (auth : LokiAuth)
    (outcome : HttpOutcome) : Except PyError (List FlatRecord) := do
  let _range ← calculate_range hours_ago now_us
  let _headers ← auth.headers
  let payload ← fetch_payload outcome
  let data ← json_loads payload
  parse_streams data

/-! ## The consumer-side merge (`agent.py`, `retrieve_logs_for_run`) -/

/-- Build a Python dict literal from its fields in order (duplicate keys
update in place, per CPython semantics). -/
def pyDictBuild (fields : List (String × PyVal)) : List (String × PyVal) :=
  fields.foldl (fun acc p => pyDictInsert acc p.1 p.2) []

/-- The body of the `for record in raw_records` loop in
`retrieve_logs_for_run`: decode the payload with
`json.loads(str(record["record"]))`, convert the timestamp with
`pd.to_datetime(int(record["timestamp"]), unit="ns")` (modelled as
`PyVal.instant`), draw `stream` from `record["labels"]["stream"]`, and merge
the decoded fields at top level. -/
def normalize_record (record : FlatRecord) : Except PyError (List (String × PyVal)) := do
  let entry ← json_loads (py_str record.record)
  let ts ← py_int record.timestamp
  let streamVal ←
    match record.labels with
    | PyVal.dict fs =>
      match fs.lookup "stream" with
      | Option.some v => Except.ok v
      | Option.none => Except.error (.keyError "stream")
    | _ => Except.error (.typeError "value is not subscriptable")
  let entryFields ←
    match entry with
    | PyVal.dict fs => Except.ok fs
    | _ => Except.error (.typeError "argument after ** must be a mapping")
  return pyDictBuild
    (("timestamp", PyVal.instant ts) :: ("stream", streamVal) :: entryFields)

/-! ## Theorems -/

theorem to_unix_ns_eq (us : ℤ) : to_unix_ns us = us * 1000 := by
  unfold to_unix_ns py_int_trunc
  have h : ((us : ℚ) / 1000000 * 1000000000) = ((us * 1000 : ℤ) : ℚ) := by
    push_cast
    ring
  rw [h]
  split_ifs with hlt
  · exact Int.ceil_intCast _
  · exact Int.floor_intCast _

theorem timedelta_us_nonneg (h : ℚ) (hh : 0 ≤ h) : 0 ≤ timedelta_us h := by
  unfold timedelta_us
  rw [round_eq, Int.le_floor]
  push_cast
  nlinarith

theorem timedelta_us_close (h : ℚ) :
    |(timedelta_us h : ℚ) - h * 3600 * 1000000| ≤ 1 / 2 := by
  unfold timedelta_us
  rw [abs_sub_comm]
  exact abs_sub_round (h * 3600 * 1000000)

/-- C1: for `hoursAgo >= 0`, `calculate_range` succeeds with a pair
`(start, end)` derived from the single clock reading `now_us`, with
`start <= end` and `end - start` within 500 ns of `hoursAgo` hours expressed
in nanoseconds (the sub-microsecond rounding of `timedelta`). -/
theorem calculate_range_ok (h : ℚ) (now_us : ℤ) (hh : 0 ≤ h) :
    ∃ s e : ℤ, calculate_range h now_us = .ok (s, e) ∧ s ≤ e ∧
      |((e - s : ℤ) : ℚ) - h * 3600 * 1000000000| ≤ 500 := by
  have htd : 0 ≤ timedelta_us h := timedelta_us_nonneg h hh
  refine ⟨to_unix_ns (now_us - timedelta_us h), to_unix_ns now_us, ?_, ?_, ?_⟩
  · unfold calculate_range
    rw [if_neg (not_lt.mpr hh)]
  · rw [to_unix_ns_eq, to_unix_ns_eq]
    nlinarith
  · have key : ((to_unix_ns now_us - to_unix_ns (now_us - timedelta_us h) : ℤ) : ℚ)
        - h * 3600 * 1000000000
        = 1000 * ((timedelta_us h : ℚ) - h * 3600 * 1000000) := by
      rw [to_unix_ns_eq, to_unix_ns_eq]
      push_cast
      ring
    rw [key]
    calc |1000 * ((timedelta_us h : ℚ) - h * 3600 * 1000000)|
        = 1000 * |(timedelta_us h : ℚ) - h * 3600 * 1000000| := by
          rw [abs_mul]
          norm_num
      _ ≤ 1000 * (1 / 2) := by
          have := timedelta_us_close h
          nlinarith [abs_nonneg ((timedelta_us h : ℚ) - h * 3600 * 1000000)]
      _ = 500 := by norm_num

/-- C1 witness: the theorem applied at `hoursAgo = 2` and a concrete clock
reading. -/
theorem calculate_range_ok_witness :
    0 ≤ (2 : ℚ) ∧ ∃ s e : ℤ, calculate_range 2 1700000000000000 = .ok (s, e) ∧
      s ≤ e ∧ |((e - s : ℤ) : ℚ) - 2 * 3600 * 1000000000| ≤ 500 :=
  ⟨by norm_num, calculate_range_ok 2 1700000000000000 (by norm_num)⟩

/-- C9: for `hoursAgo < 0`, `calculate_range` fails with the `ValueError`
(the specification's `InvalidArgument`) before any clock use. -/
theorem calculate_range_invalid (h : ℚ) (now_us : ℤ) (hh : h < 0) :
    calculate_range h now_us
      = .error (.valueError "hours_ago must be non-negative") := by
  unfold calculate_range
  rw [if_pos hh]

/-- C9 witness: the theorem applied at `hoursAgo = -1`. -/
theorem calculate_range_invalid_witness :
    (-1 : ℚ) < 0 ∧ calculate_range (-1) 0
      = .error (.valueError "hours_ago must be non-negative") :=
  ⟨by norm_num, calculate_range_invalid (-1) 0 (by norm_num)⟩

/-- C5 counterexample: constructing a `LokiAuth` with both the basic and the
bearer fields populated succeeds — the dataclass constructor performs no
validation, so construction is not where the conflict is rejected. -/
theorem mkLokiAuth_both_populated_succeeds :
    mkLokiAuth (Option.some ("user", "pass")) (Option.some "token")
      = .ok (LokiAuth.mk (Option.some ("user", "pass")) (Option.some "token")) :=
  rfl

/-- C5 amended: a credential with both fields populated can be constructed,
but the exactly-one-variant invariant is enforced when headers are produced:
`headers()` raises rather than giving either mode precedence. -/
theorem lokiauth_invariant_at_headers (u p t : String) (ht : t ≠ "") :
    mkLokiAuth (Option.some (u, p)) (Option.some t)
      = .ok (LokiAuth.mk (Option.some (u, p)) (Option.some t))
    ∧ (LokiAuth.mk (Option.some (u, p)) (Option.some t)).headers
      = .error (.valueError "Use either basic_auth or bearer_token, not both.") := by
  refine ⟨rfl, ?_⟩
  simp [LokiAuth.headers, basicTruthy, bearerTruthy, ht]

/-- C5 witness: the amended theorem applied at a concrete credential. -/
theorem lokiauth_invariant_at_headers_witness :
    ("tok" : String) ≠ ""
    ∧ (mkLokiAuth (Option.some ("u", "p")) (Option.some "tok")
        = .ok (LokiAuth.mk (Option.some ("u", "p")) (Option.some "tok"))
      ∧ (LokiAuth.mk (Option.some ("u", "p")) (Option.some "tok")).headers
        = .error (.valueError "Use either basic_auth or bearer_token, not both.")) :=
  ⟨by decide, lokiauth_invariant_at_headers "u" "p" "tok" (by decide)⟩

/-- C7: `headers()` raises the `ValueError` (the specification's
`ConfigurationError`) when both credential modes are configured — the check
lives in `headers()`, not in the constructor — and returns the empty header
mapping when neither is configured. -/
theorem headers_conflict_and_empty (u p t : String) (ht : t ≠ "") :
    (LokiAuth.mk (Option.some (u, p)) (Option.some t)).headers
      = .error (.valueError "Use either basic_auth or bearer_token, not both.")
    ∧ (LokiAuth.mk Option.none Option.none).headers = .ok [] := by
  refine ⟨?_, rfl⟩
  simp [LokiAuth.headers, basicTruthy, bearerTruthy, ht]

/-- C7 witness: the theorem applied at a concrete credential. -/
theorem headers_conflict_and_empty_witness :
    ("secret" : String) ≠ ""
    ∧ ((LokiAuth.mk (Option.some ("admin", "pw")) (Option.some "secret")).headers
        = .error (.valueError "Use either basic_auth or bearer_token, not both.")
      ∧ (LokiAuth.mk Option.none Option.none).headers = .ok []) :=
  ⟨by decide, headers_conflict_and_empty "admin" "pw" "secret" (by decide)⟩

/-- C10 counterexample: a credential whose basic pair is two empty strings is
not treated like the no-credential mode — the 2-tuple is truthy in Python, so
`headers()` emits a `Basic` authorization header instead of the empty
mapping. -/
theorem headers_empty_basic_not_empty :
    (LokiAuth.mk (Option.some ("", "")) Option.none).headers ≠ .ok [] := by
  have h1 : (LokiAuth.mk (Option.some ("", "")) Option.none).headers
      = .ok [("Authorization", "Basic Og==")] := rfl
  rw [h1]
  simp

/-- C10 amended: an empty-string bearer token is falsy, so it behaves exactly
like the no-credential mode; an all-empty basic pair is a non-empty tuple,
hence truthy, and produces the `Basic` header for the empty `user:password`
(`base64(":") = "Og=="`). -/
theorem headers_truthiness :
    (LokiAuth.mk Option.none (Option.some "")).headers = .ok []
    ∧ (LokiAuth.mk (Option.some ("", "")) Option.none).headers
      = .ok [("Authorization", "Basic Og==")] :=
  ⟨rfl, rfl⟩

/-- C3 counterexample: the two failure paths of `query_range` raise the same
exception type — both the non-2xx case and the transport case surface as a
`RuntimeError`, so there is no distinct typed failure separating them. -/
theorem fetch_payload_same_exception_type :
    fetch_payload (.httpError 500 "internal error")
      = .error (.runtimeError "Loki query failed with HTTP 500: internal error")
    ∧ fetch_payload (.urlError "connection refused")
      = .error (.runtimeError "Failed to reach Loki: connection refused") :=
  ⟨rfl, rfl⟩

/-- C3 amended: a non-2xx response fails with a `RuntimeError` whose message
carries the status code and response body; a transport failure fails with a
`RuntimeError` whose message carries the reason; the two failures are
distinguishable only by their messages (which can never coincide), not by
distinct exception types. -/
theorem fetch_payload_classification (code : ℤ) (body reason : String) :
    fetch_payload (.httpError code body)
      = .error (.runtimeError
          ("Loki query failed with HTTP " ++ toString code ++ ": " ++ body))
    ∧ fetch_payload (.urlError reason)
      = .error (.runtimeError ("Failed to reach Loki: " ++ reason))
    ∧ fetch_payload (.httpError code body) ≠ fetch_payload (.urlError reason) := by
  refine ⟨rfl, rfl, ?_⟩
  intro hcontra
  simp only [fetch_payload, Except.error.injEq, PyError.runtimeError.injEq] at hcontra
  have h1 : ("Loki query failed with HTTP " ++ toString code ++ ": " ++ body).data.head?
      = Option.some 'L' := rfl
  have h2 : ("Failed to reach Loki: " ++ reason).data.head? = Option.some 'F' := rfl
  rw [hcontra, h2] at h1
  exact absurd h1 (by decide)

theorem parse_stream_records_wf (L : PyVal) (vs : List PyVal) :
    parse_stream_records (PyVal.dict [("stream", L), ("values", PyVal.list vs)])
      = .ok (vs.filterMap (flattenEntry L)) := rfl

theorem parse_streams_wf (streams : List PyVal) :
    parse_streams (PyVal.dict [("data", PyVal.dict [("result", PyVal.list streams)])])
      = parse_streams_loop streams := rfl

theorem parse_streams_loop_wf (ss : List (PyVal × List PyVal)) :
    parse_streams_loop
        (ss.map (fun s => PyVal.dict [("stream", s.1), ("values", PyVal.list s.2)]))
      = .ok ((ss.map (fun s => s.2.filterMap (flattenEntry s.1))).flatten) := by
  induction ss with
  | nil => rfl
  | cons hd tl ih =>
    simp only [List.map_cons, parse_streams_loop, parse_stream_records_wf, ih,
      List.flatten_cons]
    rfl

/-- C2: the flattener's defensive parsing.  A missing `data` field, a missing
`data.result` field, or a missing `values` field yields zero records rather
than a failure; a missing `stream` field defaults the labels to the empty
mapping; and an entry of `values` that is not exactly a two-element pair is
dropped (`flattenEntry` returns nothing for it) while the remaining
well-formed entries of the same stream are still emitted, in order. -/
theorem parse_streams_defensive :
    (∀ fs : List (String × PyVal), fs.lookup "data" = Option.none →
      parse_streams (PyVal.dict fs) = .ok [])
    ∧ (∀ (fs dfs : List (String × PyVal)),
        fs.lookup "data" = Option.some (PyVal.dict dfs) →
        dfs.lookup "result" = Option.none →
        parse_streams (PyVal.dict fs) = .ok [])
    ∧ (∀ sfs : List (String × PyVal), sfs.lookup "values" = Option.none →
        parse_stream_records (PyVal.dict sfs) = .ok [])
    ∧ (∀ (sfs : List (String × PyVal)) (vs : List PyVal),
        sfs.lookup "values" = Option.some (PyVal.list vs) →
        parse_stream_records (PyVal.dict sfs)
          = .ok (vs.filterMap
              (flattenEntry ((sfs.lookup "stream").getD (PyVal.dict []))))) := by
  refine ⟨?_, ?_, ?_, ?_⟩
  · intro fs h1
    unfold parse_streams
    dsimp only [Option.getD]
    rw [h1]
    rfl
  · intro fs dfs h1 h2
    unfold parse_streams
    dsimp only [Option.getD]
    rw [h1]
    dsimp only [Option.getD]
    rw [h2]
    rfl
  · intro sfs h3
    unfold parse_stream_records
    dsimp only [Option.getD]
    rw [h3]
    rfl
  · intro sfs vs h4
    unfold parse_stream_records
    dsimp only [Option.getD]
    rw [h4]
    rfl

/-- C2 witness: the four defensive cases at concrete inputs — an empty
response, a response whose `data` has no `result`, a stream without `values`,
and a stream whose `values` holds one malformed single-element entry between
two well-formed pairs (only the two pairs are emitted, in order, with the
default empty labels). -/
theorem parse_streams_defensive_witness :
    parse_streams (PyVal.dict []) = .ok []
    ∧ parse_streams (PyVal.dict
        [("data", PyVal.dict [("status", PyVal.str "success")])]) = .ok []
    ∧ parse_stream_records (PyVal.dict
        [("stream", PyVal.dict [("app", PyVal.str "x")])]) = .ok []
    ∧ parse_stream_records (PyVal.dict
        [("values", PyVal.list
          [PyVal.list [PyVal.str "1", PyVal.str "a"],
           PyVal.list [PyVal.str "oops"],
           PyVal.list [PyVal.str "2", PyVal.str "b"]])])
      = .ok [⟨PyVal.str "1", PyVal.dict [], PyVal.str "a"⟩,
             ⟨PyVal.str "2", PyVal.dict [], PyVal.str "b"⟩] :=
  ⟨parse_streams_defensive.1 [] rfl,
   parse_streams_defensive.2.1 [("data", PyVal.dict [("status", PyVal.str "success")])]
     [("status", PyVal.str "success")] rfl rfl,
   parse_streams_defensive.2.2.1 [("stream", PyVal.dict [("app", PyVal.str "x")])] rfl,
   parse_streams_defensive.2.2.2
     [("values", PyVal.list
       [PyVal.list [PyVal.str "1", PyVal.str "a"],
        PyVal.list [PyVal.str "oops"],
        PyVal.list [PyVal.str "2", PyVal.str "b"]])]
     [PyVal.list [PyVal.str "1", PyVal.str "a"],
      PyVal.list [PyVal.str "oops"],
      PyVal.list [PyVal.str "2", PyVal.str "b"]] rfl⟩

/-- C6: on a parsed response body whose streams each carry a label value and
a values list, the flattener emits exactly the backend's order — stream order
then value order, with no reordering — and each emitted record takes its
timestamp verbatim from the pair's first element, its labels from the
enclosing stream, and its payload from the pair's second element
(`flattenEntry`). -/
theorem parse_streams_order (ss : List (PyVal × List PyVal)) :
    parse_streams (PyVal.dict [("data", PyVal.dict [("result",
        PyVal.list (ss.map (fun s =>
          PyVal.dict [("stream", s.1), ("values", PyVal.list s.2)]))) ])])
      = .ok ((ss.map (fun s => s.2.filterMap (flattenEntry s.1))).flatten) :=
  (parse_streams_wf _).trans (parse_streams_loop_wf ss)

/-- C8: round-trip of flatten followed by the consumer-side re-merge.
Flattening a backend stream whose one record has timestamp string
`"1700000000000000000"`, labels mapping `stream` to `stdout`, and payload
the JSON text for a `msg: ok` object yields exactly that flat record; merging
it back produces `stream = "stdout"`, `msg = "ok"`, and a timestamp equal to
the instant corresponding to that nanosecond value. -/
theorem flatten_merge_roundtrip :
    parse_streams (PyVal.dict [("data", PyVal.dict [("result", PyVal.list
        [PyVal.dict [("stream", PyVal.dict [("stream", PyVal.str "stdout")]),
                     ("values", PyVal.list [PyVal.list
                        [PyVal.str "1700000000000000000",
                         PyVal.str "\x7b\"msg\": \"ok\"\x7d"]])]])])])
      = .ok [⟨PyVal.str "1700000000000000000",
              PyVal.dict [("stream", PyVal.str "stdout")],
              PyVal.str "\x7b\"msg\": \"ok\"\x7d"⟩]
    ∧ normalize_record
        ⟨PyVal.str "1700000000000000000",
         PyVal.dict [("stream", PyVal.str "stdout")],
         PyVal.str "\x7b\"msg\": \"ok\"\x7d"⟩
      = .ok [("timestamp", PyVal.instant 1700000000000000000),
             ("stream", PyVal.str "stdout"),
             ("msg", PyVal.str "ok")] :=
  ⟨rfl, rfl⟩
